import Mathlib

/-!
Shallow embedding of the `stitcher` crate (src/src/lib.rs, src/src/main.rs,
src/src/bin/stitcher.rs): a utility that stitches four PNG images into one
2x2 composite.

Modelling conventions:
* A decoded image (`image::DynamicImage` / `image::RgbaImage`) is a `Raster`:
  a width, a height, and a pixel function giving the RGBA channels at each
  coordinate.  Channel values are 8-bit in the source; no arithmetic is ever
  performed on them, so they are plain `Nat` fields.
* `u32` arithmetic: the only dimension arithmetic the source performs is
  `width * 2` / `height * 2` in `ImageBuffer::new(width * 2, height * 2)`
  (lib.rs line 186): that multiplication is modelled with the release-mode
  wrapping semantics, `% 2 ^ 32`.  The pixel-coordinate additions inside
  `copy_into` stay below `2 ^ 32` at every call site that the theorems cover
  (their hypotheses record the bound), so they are modelled exactly on `Nat`.
* File-system effects (decoding, `File::create`, `save`) are performed by the
  `image` crate and `std::fs` collaborators.  They are modelled by an
  environment `Env` of response functions, and the pipeline returns, next to
  its `Result`, the ordered list of output-file effects it performed.
-/

namespace Stitcher

/-- One RGBA pixel: four 8-bit channels (`image::Rgba<u8>`). -/
structure Pixel where
  r : Nat
  g : Nat
  b : Nat
  a : Nat
deriving DecidableEq, Repr

/-- A decoded raster image: dimensions plus pixel content
(`image::DynamicImage` / `image::RgbaImage`). -/
structure Raster where
  width : Nat
  height : Nat
  pix : Nat → Nat → Pixel

/-- The error enum of lib.rs lines 67-85.  The payloads of `Io` and
`ImageError` abstract the wrapped `std::io::Error` / `image::ImageError`
values; `Custom` is never produced by the crate itself (lib.rs line 78). -/
inductive StitcherError where
  | Io (cause : String)
  | ImageError (cause : String)
  | CommandLineParsingError
  | SizeMismatch
  | Custom (inner : String)
deriving DecidableEq, Repr

/-- `check_size` (lib.rs lines 99-107): compare an image's dimensions with the
expected ones, `Err(SizeMismatch)` on any difference. -/
def check_size (img : Raster) (expected_width expected_height : Nat) :
    Except StitcherError Unit :=
  if img.width ≠ expected_width ∨ img.height ≠ expected_height then
    Except.error StitcherError.SizeMismatch
  else
    Except.ok ()

/-- `ImageBuffer::new(w, h)` of the `image` crate: the fresh canvas allocated
at lib.rs line 186, with every pixel zero-initialized (all four channels 0). -/
def ImageBuffer.new (w h : Nat) : Raster :=
  { width := w, height := h, pix := fun _ _ => ⟨0, 0, 0, 0⟩ }

/-- `copy_into` (lib.rs lines 109-121): `img.sub_image(x, y, width, height)`
followed by `sub.copy_from(src, 0, 0)`.  `GenericImage::copy_from` of the
`image` crate first checks that the source fits in the target view and
silently returns when it does not; otherwise it writes `src`'s pixel `(i, k)`
to the underlying buffer at `(x + i, y + k)` for every `i < src.width`,
`k < src.height`.  Those `u32` additions are modelled exactly: they stay below
`2 ^ 32` in every situation the theorems below cover. -/
def copy_into (img : Raster) (src : Raster) (x y width height : Nat) : Raster :=
  if width < src.width ∨ height < src.height then
    img
  else
    { img with
      pix := fun px py =>
        if x ≤ px ∧ px < x + src.width ∧ y ≤ py ∧ py < y + src.height then
          src.pix (px - x) (py - y)
        else
          img.pix px py }

/-- The size-validation stage of `stitch_images` (lib.rs lines 180-183): the
first (top-left) raster's dimensions are the reference and the three other
rasters are passed through `check_size` in order, failing fast. -/
def validate_sizes (img_tl img_tr img_bl img_br : Raster) :
    Except StitcherError Unit := do
  let width := img_tl.width
  let height := img_tl.height
  let _ ← check_size img_tr width height
  let _ ← check_size img_bl width height
  check_size img_br width height

/-- The canvas-construction stage of `stitch_images` (lib.rs lines 186-191):
allocate `ImageBuffer::new(width * 2, height * 2)` (with `u32` wrapping on the
products) and copy the four images in at offsets `(0,0)`, `(width,0)`,
`(0,height)`, `(width,height)`. -/
def compose2x2 (img_tl img_tr img_bl img_br : Raster) : Raster :=
  let width := img_tl.width
  let height := img_tl.height
  let img0 := ImageBuffer.new (width * 2 % 2 ^ 32) (height * 2 % 2 ^ 32)
  let img1 := copy_into img0 img_tl 0 0 width height
  let img2 := copy_into img1 img_tr width 0 width height
  let img3 := copy_into img2 img_bl 0 height width height
  copy_into img3 img_br width height width height

/-- The file-system collaborators of the pipeline: `image::open` (decode a
path, or fail with an `image::ImageError` payload), `File::create` (create
the output file, or fail with an `io::Error` payload), and
`DynamicImage::save` (encode the canvas into the created file, or fail with
an `io::Error` payload). -/
structure Env where
  imageOpen : String → Except String Raster
  fileCreate : String → Except String Unit
  imageSave : Raster → String → Except String Unit

/-- An observable effect on the output file. -/
inductive Effect where
  | fileCreate (path : String)
  | fileWrite (path : String) (img : Raster)

/-- The decode stage of `stitch_images` (lib.rs lines 174-177): open the four
paths in order tl, tr, bl, br, failing fast; each `image::open` error is
wrapped into `StitcherError::ImageError` by the `?` conversion. -/
def decode4 (env : Env) (tl tr bl br : String) :
    Except StitcherError (Raster × Raster × Raster × Raster) :=
  match env.imageOpen tl with
  | Except.error e => Except.error (StitcherError.ImageError e)
  | Except.ok img_tl =>
    match env.imageOpen tr with
    | Except.error e => Except.error (StitcherError.ImageError e)
    | Except.ok img_tr =>
      match env.imageOpen bl with
      | Except.error e => Except.error (StitcherError.ImageError e)
      | Except.ok img_bl =>
        match env.imageOpen br with
        | Except.error e => Except.error (StitcherError.ImageError e)
        | Except.ok img_br => Except.ok (img_tl, img_tr, img_bl, img_br)

/-- `stitch_images` (lib.rs lines 169-197): decode the four inputs, validate
sizes against the top-left image, compose the 2x2 canvas, then create the
output file and save the canvas into it.  The second component records the
output-file effects actually performed. -/
def stitch_images (env : Env) (tl tr bl br out : String) :
    Except StitcherError Unit × List Effect :=
  match decode4 env tl tr bl br with
  | Except.error e => (Except.error e, [])
  | Except.ok (img_tl, img_tr, img_bl, img_br) =>
    match validate_sizes img_tl img_tr img_bl img_br with
    | Except.error e => (Except.error e, [])
    | Except.ok _ =>
      let img := compose2x2 img_tl img_tr img_bl img_br
      match env.fileCreate out with
      | Except.error e => (Except.error (StitcherError.Io e), [])
      | Except.ok _ =>
        match env.imageSave img out with
        | Except.error e =>
            (Except.error (StitcherError.Io e), [Effect.fileCreate out])
        | Except.ok _ =>
            (Except.ok (), [Effect.fileCreate out, Effect.fileWrite out img])

/-- `stitch` (lib.rs lines 142-158): build the five conventional filenames
from the prefix and hand them to `stitch_images`. -/
def stitch (env : Env) (u : String) :
    Except StitcherError Unit × List Effect :=
  let filename_tl := u ++ "-tl.png"
  let filename_tr := u ++ "-tr.png"
  let filename_bl := u ++ "-bl.png"
  let filename_br := u ++ "-br.png"
  let filename_output := u ++ "-out.png"
  stitch_images env filename_tl filename_tr filename_bl filename_br
    filename_output

/-- The command-line options of `run` (main.rs lines 80-133; the same
structure appears in bin/stitcher.rs lines 19-71): each option is present
with a value or absent. -/
structure Args where
  usingOpt : Option String
  topLeft : Option String
  topRight : Option String
  bottomLeft : Option String
  bottomRight : Option String
  output : Option String

/-- What `run` decides to do after inspecting the parsed options. -/
inductive RunAction where
  | doStitch (u : String)
  | doStitchImages (tl tr bl br out : String)
  | parseError
  | noop
deriving DecidableEq, Repr

/-- The control flow of `run` (main.rs lines 123-153; identically
bin/stitcher.rs lines 61-91): `--using` wins; otherwise the nested
`if let Some` chain fires only when all five explicit options are present;
otherwise an error is raised only when one of top-right, bottom-left,
bottom-right or output is present — the value of top-left is not consulted
by that final check. -/
def run (a : Args) : RunAction :=
  match a.usingOpt with
  | some u => RunAction.doStitch u
  | none =>
    match a.topLeft, a.topRight, a.bottomLeft, a.bottomRight, a.output with
    | some tl, some tr, some bl, some br, some out =>
        RunAction.doStitchImages tl tr bl br out
    | _, _, _, _, _ =>
      if a.topRight.isSome || a.bottomLeft.isSome || a.bottomRight.isSome
          || a.output.isSome then
        RunAction.parseError
      else
        RunAction.noop

/-- `run` together with the call it dispatches to (main.rs lines 123-153):
the pipeline result and the output-file effects of the whole invocation. -/
def run_exec (env : Env) (a : Args) :
    Except StitcherError Unit × List Effect :=
  match run a with
  | RunAction.doStitch u => stitch env u
  | RunAction.doStitchImages tl tr bl br out =>
      stitch_images env tl tr bl br out
  | RunAction.parseError =>
      (Except.error StitcherError.CommandLineParsingError, [])
  | RunAction.noop => (Except.ok (), [])

/-- Membership of pixel `(x, y)` in grid cell `(r, c)` of a grid with cell
size `(w, h)`: the cell's rectangle starts at pixel offset `(c * w, r * h)`. -/
def inCell (w h r c x y : Nat) : Prop :=
  c * w ≤ x ∧ x < c * w + w ∧ r * h ≤ y ∧ y < r * h + h

instance (w h r c x y : Nat) : Decidable (inCell w h r c x y) := by
  unfold inCell
  exact inferInstance

/-- A solid-color raster, used as concrete test input. -/
def solid (w h : Nat) (p : Pixel) : Raster :=
  { width := w, height := h, pix := fun _ _ => p }

def pxRed : Pixel := ⟨255, 0, 0, 255⟩

def pxGreen : Pixel := ⟨0, 255, 0, 255⟩

def pxBlue : Pixel := ⟨0, 0, 255, 255⟩

def pxYellow : Pixel := ⟨255, 255, 0, 255⟩

/-- An environment in which every decode fails. -/
def envAllFail : Env :=
  { imageOpen := fun _ => Except.error "decode failure"
    fileCreate := fun _ => Except.ok ()
    imageSave := fun _ _ => Except.ok () }

/-- An environment amounting to the scenario of C5: the bottom-left input is
undecodable while the decodable top-right input has mismatched dimensions. -/
def envMixed : Env :=
  { imageOpen := fun p =>
      if p = "tl.png" then Except.ok (solid 2 2 pxRed)
      else if p = "tr.png" then Except.ok (solid 3 2 pxGreen)
      else Except.error "unreadable"
    fileCreate := fun _ => Except.ok ()
    imageSave := fun _ _ => Except.ok () }

/-! Helper lemmas shared by the claim theorems. -/

/-- Pointwise characterization of `copy_into`: a pixel of the result comes
from the source exactly when it lies in the target rectangle and the source
passed `copy_from`'s fit check. -/
theorem copy_into_pix (img src : Raster) (x y width height px py : Nat) :
    (copy_into img src x y width height).pix px py =
      if width < src.width ∨ height < src.height then
        img.pix px py
      else if x ≤ px ∧ px < x + src.width ∧ y ≤ py ∧ py < y + src.height then
        src.pix (px - x) (py - y)
      else
        img.pix px py := by
  unfold copy_into
  by_cases hg : width < src.width ∨ height < src.height
  · simp [hg]
  · simp [hg]

/-- A cell copy never changes the canvas dimensions. -/
theorem copy_into_width (img src : Raster) (x y width height : Nat) :
    (copy_into img src x y width height).width = img.width := by
  unfold copy_into
  split <;> rfl

/-- A cell copy never changes the canvas dimensions. -/
theorem copy_into_height (img src : Raster) (x y width height : Nat) :
    (copy_into img src x y width height).height = img.height := by
  unfold copy_into
  split <;> rfl

/-- C2: size validation takes the top-left raster's dimensions as the
reference; it succeeds exactly when the three other rasters match the
reference in both width and height, and fails with `SizeMismatch` on every
other input set. -/
theorem validate_sizes_reference (img_tl img_tr img_bl img_br : Raster) :
    validate_sizes img_tl img_tr img_bl img_br =
      if img_tr.width = img_tl.width ∧ img_tr.height = img_tl.height ∧
         img_bl.width = img_tl.width ∧ img_bl.height = img_tl.height ∧
         img_br.width = img_tl.width ∧ img_br.height = img_tl.height then
        Except.ok ()
      else
        Except.error StitcherError.SizeMismatch := by
  unfold validate_sizes check_size
  dsimp only [bind, Except.bind]
  split_ifs <;> simp_all

/-- C4: the naming-convention mode is a thin adapter over the ordered-path
operation: `stitch(p)` is exactly `stitch_images` on the paths `p ++ "-tl.png"`,
`p ++ "-tr.png"`, `p ++ "-bl.png"`, `p ++ "-br.png"` with output
`p ++ "-out.png"`, with the identical result and effects. -/
theorem stitch_thin_adapter (env : Env) (p : String) :
    stitch env p =
      stitch_images env (p ++ "-tl.png") (p ++ "-tr.png") (p ++ "-bl.png")
        (p ++ "-br.png") (p ++ "-out.png") :=
  rfl

/-- C8: immediately after allocation and before any cell copy, the canvas
allocated by `ImageBuffer::new(width * 2, height * 2)` has dimensions exactly
`(width * 2, height * 2)` (for every cell size whose doubling fits in `u32`)
and every pixel of it is zero-initialized, all four channels 0. -/
theorem canvas_zero_initialized (width height : Nat)
    (hw : width * 2 < 2 ^ 32) (hh : height * 2 < 2 ^ 32) (x y : Nat) :
    (ImageBuffer.new (width * 2 % 2 ^ 32) (height * 2 % 2 ^ 32)).width =
        width * 2 ∧
    (ImageBuffer.new (width * 2 % 2 ^ 32) (height * 2 % 2 ^ 32)).height =
        height * 2 ∧
    (ImageBuffer.new (width * 2 % 2 ^ 32) (height * 2 % 2 ^ 32)).pix x y =
        ⟨0, 0, 0, 0⟩ := by
  refine ⟨?_, ?_, rfl⟩
  · exact Nat.mod_eq_of_lt hw
  · exact Nat.mod_eq_of_lt hh

/-- Witness for C8 at cell size (2, 3) and pixel (1, 5). -/
theorem canvas_zero_initialized_witness :
    (ImageBuffer.new (2 * 2 % 2 ^ 32) (3 * 2 % 2 ^ 32)).width = 2 * 2 ∧
    (ImageBuffer.new (2 * 2 % 2 ^ 32) (3 * 2 % 2 ^ 32)).height = 3 * 2 ∧
    (ImageBuffer.new (2 * 2 % 2 ^ 32) (3 * 2 % 2 ^ 32)).pix 1 5 =
      ⟨0, 0, 0, 0⟩ :=
  canvas_zero_initialized 2 3 (by norm_num) (by norm_num) 1 5

/-- C10: a cell copy of a `width × height` source raster at offset `(x, y)`
leaves every canvas pixel outside the rectangle
`[x, x + width) × [y, y + height)` unchanged, and leaves the canvas
dimensions unchanged.  The bounds on `x + width` and `y + height` record the
regime in which the `u32` coordinate additions of the source cannot wrap. -/
theorem copy_into_frame (img src : Raster) (x y width height px py : Nat)
    (hsw : src.width = width) (hsh : src.height = height)
    (_hxw : x + width ≤ 2 ^ 32) (_hyh : y + height ≤ 2 ^ 32)
    (hout : px < x ∨ x + width ≤ px ∨ py < y ∨ y + height ≤ py) :
    (copy_into img src x y width height).pix px py = img.pix px py ∧
    (copy_into img src x y width height).width = img.width ∧
    (copy_into img src x y width height).height = img.height := by
  refine ⟨?_, copy_into_width .., copy_into_height ..⟩
  rw [copy_into_pix]
  split_ifs <;> first | rfl | (exfalso; omega)

set_option maxHeartbeats 1600000 in
/-- C1: for four decoded rasters of identical dimensions `(w, h)`, composition
places the top-left input at pixel offset `(0, 0)`, the top-right at `(w, 0)`,
the bottom-left at `(0, h)` and the bottom-right at `(w, h)`, each covering
exactly `w × h` pixels channel-for-channel with straight overwrite.  The
`u32`-range bounds keep the canvas allocation below the wrap regime. -/
theorem compose_placement (img_tl img_tr img_bl img_br : Raster) (w h : Nat)
    (h1 : img_tl.width = w) (h2 : img_tl.height = h)
    (h3 : img_tr.width = w) (h4 : img_tr.height = h)
    (h5 : img_bl.width = w) (h6 : img_bl.height = h)
    (h7 : img_br.width = w) (h8 : img_br.height = h)
    (_hw : w * 2 < 2 ^ 32) (_hh : h * 2 < 2 ^ 32)
    (i j : Nat) (hi : i < w) (hj : j < h) :
    (compose2x2 img_tl img_tr img_bl img_br).pix i j = img_tl.pix i j ∧
    (compose2x2 img_tl img_tr img_bl img_br).pix (w + i) j = img_tr.pix i j ∧
    (compose2x2 img_tl img_tr img_bl img_br).pix i (h + j) = img_bl.pix i j ∧
    (compose2x2 img_tl img_tr img_bl img_br).pix (w + i) (h + j) =
        img_br.pix i j := by
  simp only [compose2x2, copy_into_pix]
  refine ⟨?_, ?_, ?_, ?_⟩ <;>
    (split_ifs <;> first | (exfalso; omega) | (congr <;> omega))

/-- Witness for C1: the spec's placement test with four distinct solid 2x2
rasters (red, green, blue, yellow), checked at cell coordinate (1, 0). -/
theorem compose_placement_witness :
    (compose2x2 (solid 2 2 pxRed) (solid 2 2 pxGreen) (solid 2 2 pxBlue)
        (solid 2 2 pxYellow)).pix 1 0 = (solid 2 2 pxRed).pix 1 0 ∧
    (compose2x2 (solid 2 2 pxRed) (solid 2 2 pxGreen) (solid 2 2 pxBlue)
        (solid 2 2 pxYellow)).pix (2 + 1) 0 = (solid 2 2 pxGreen).pix 1 0 ∧
    (compose2x2 (solid 2 2 pxRed) (solid 2 2 pxGreen) (solid 2 2 pxBlue)
        (solid 2 2 pxYellow)).pix 1 (2 + 0) = (solid 2 2 pxBlue).pix 1 0 ∧
    (compose2x2 (solid 2 2 pxRed) (solid 2 2 pxGreen) (solid 2 2 pxBlue)
        (solid 2 2 pxYellow)).pix (2 + 1) (2 + 0) =
      (solid 2 2 pxYellow).pix 1 0 :=
  compose_placement (solid 2 2 pxRed) (solid 2 2 pxGreen) (solid 2 2 pxBlue)
    (solid 2 2 pxYellow) 2 2 rfl rfl rfl rfl rfl rfl rfl rfl
    (by norm_num) (by norm_num) 1 0 (by norm_num) (by norm_num)

/-- C3: a successful composition of four rasters of cell size `(w, h)` yields
a canvas of dimensions exactly `(w * 2, h * 2)`, and the four cells tile the
canvas with no gaps and no overlaps: every canvas pixel lies in exactly one
cell of the 2x2 grid. -/
theorem compose_full_coverage (img_tl img_tr img_bl img_br : Raster) (w h : Nat)
    (h1 : img_tl.width = w) (h2 : img_tl.height = h)
    (_h3 : img_tr.width = w) (_h4 : img_tr.height = h)
    (_h5 : img_bl.width = w) (_h6 : img_bl.height = h)
    (_h7 : img_br.width = w) (_h8 : img_br.height = h)
    (hw : w * 2 < 2 ^ 32) (hh : h * 2 < 2 ^ 32)
    (x y : Nat) (hx : x < w * 2) (hy : y < h * 2) :
    (compose2x2 img_tl img_tr img_bl img_br).width = w * 2 ∧
    (compose2x2 img_tl img_tr img_bl img_br).height = h * 2 ∧
    ∃! rc : Nat × Nat, rc.1 < 2 ∧ rc.2 < 2 ∧ inCell w h rc.1 rc.2 x y := by
  refine ⟨?_, ?_, ?_⟩
  · simp only [compose2x2, copy_into_width, ImageBuffer.new, h1]
    exact Nat.mod_eq_of_lt hw
  · simp only [compose2x2, copy_into_height, ImageBuffer.new, h2]
    exact Nat.mod_eq_of_lt hh
  · refine ⟨⟨if h ≤ y then 1 else 0, if w ≤ x then 1 else 0⟩, ⟨?_, ?_, ?_⟩, ?_⟩
    · split_ifs <;> omega
    · split_ifs <;> omega
    · unfold inCell
      split_ifs <;> simp <;> omega
    · rintro ⟨r2, c2⟩ ⟨hr2, hc2, hcell⟩
      unfold inCell at hcell
      simp only [Prod.mk.injEq]
      interval_cases r2 <;> interval_cases c2 <;>
        split_ifs <;> simp_all <;> omega

/-- Witness for C3 at four solid 2x2 rasters and canvas pixel (1, 2). -/
theorem compose_full_coverage_witness :
    (compose2x2 (solid 2 2 pxRed) (solid 2 2 pxGreen) (solid 2 2 pxBlue)
        (solid 2 2 pxYellow)).width = 2 * 2 ∧
    (compose2x2 (solid 2 2 pxRed) (solid 2 2 pxGreen) (solid 2 2 pxBlue)
        (solid 2 2 pxYellow)).height = 2 * 2 ∧
    ∃! rc : Nat × Nat, rc.1 < 2 ∧ rc.2 < 2 ∧ inCell 2 2 rc.1 rc.2 1 2 :=
  compose_full_coverage (solid 2 2 pxRed) (solid 2 2 pxGreen)
    (solid 2 2 pxBlue) (solid 2 2 pxYellow) 2 2 rfl rfl rfl rfl rfl rfl rfl rfl
    (by norm_num) (by norm_num) 1 2 (by norm_num) (by norm_num)

/-- When any of the four `image::open` calls fails, the decode stage fails
with an `ImageError`. -/
theorem decode4_error_of_open_fail (env : Env) (tl tr bl br : String)
    (hfail : ∃ e, env.imageOpen tl = Except.error e ∨
        env.imageOpen tr = Except.error e ∨
        env.imageOpen bl = Except.error e ∨
        env.imageOpen br = Except.error e) :
    ∃ e, decode4 env tl tr bl br =
        Except.error (StitcherError.ImageError e) := by
  obtain ⟨e, he⟩ := hfail
  unfold decode4
  rcases h1 : env.imageOpen tl with e1 | i1
  · exact ⟨e1, by simp [h1]⟩
  · rcases h2 : env.imageOpen tr with e2 | i2
    · exact ⟨e2, by simp [h1, h2]⟩
    · rcases h3 : env.imageOpen bl with e3 | i3
      · exact ⟨e3, by simp [h1, h2, h3]⟩
      · rcases h4 : env.imageOpen br with e4 | i4
        · exact ⟨e4, by simp [h1, h2, h3, h4]⟩
        · exfalso
          rcases he with h | h | h | h <;> simp_all

/-- C5: when any input path is undecodable, `stitch_images` reports that
decode error (an `ImageError`), never `SizeMismatch` — even if the decodable
inputs mismatch in size — and performs no output-file effect; decode errors
take priority over size validation, which takes priority over encoding. -/
theorem decode_errors_before_size (env : Env) (tl tr bl br out : String)
    (hfail : ∃ e, env.imageOpen tl = Except.error e ∨
        env.imageOpen tr = Except.error e ∨
        env.imageOpen bl = Except.error e ∨
        env.imageOpen br = Except.error e) :
    (∃ e, (stitch_images env tl tr bl br out).1 =
        Except.error (StitcherError.ImageError e)) ∧
    (stitch_images env tl tr bl br out).1 ≠
        Except.error StitcherError.SizeMismatch ∧
    (stitch_images env tl tr bl br out).2 = [] := by
  obtain ⟨e, hd⟩ := decode4_error_of_open_fail env tl tr bl br hfail
  unfold stitch_images
  exact ⟨⟨e, by simp [hd]⟩, by simp [hd], by simp [hd]⟩

/-- Witness for C5: in `envMixed` the bottom-left input is undecodable while
the decodable top-right input has mismatched dimensions (3x2 against the 2x2
reference); the pipeline reports the decode error, not `SizeMismatch`. -/
theorem decode_errors_before_size_witness :
    (∃ e, (stitch_images envMixed "tl.png" "tr.png" "bl.png" "br.png"
        "out.png").1 = Except.error (StitcherError.ImageError e)) ∧
    (stitch_images envMixed "tl.png" "tr.png" "bl.png" "br.png" "out.png").1 ≠
        Except.error StitcherError.SizeMismatch ∧
    (stitch_images envMixed "tl.png" "tr.png" "bl.png" "br.png" "out.png").2 =
        [] :=
  decode_errors_before_size envMixed "tl.png" "tr.png" "bl.png" "br.png"
    "out.png" ⟨"unreadable", Or.inr (Or.inr (Or.inl rfl))⟩

/-- C6: whenever the pipeline fails with a decode error or with
`SizeMismatch`, it performs no output-file effect at all: the output file is
neither created nor written, since the canvas reaches the encoder only after
all decodes and size checks have succeeded. -/
theorem compose_failure_no_output (env : Env) (tl tr bl br out : String)
    (e : StitcherError)
    (hres : (stitch_images env tl tr bl br out).1 = Except.error e)
    (hkind : (∃ s, e = StitcherError.ImageError s) ∨
        e = StitcherError.SizeMismatch) :
    (stitch_images env tl tr bl br out).2 = [] := by
  unfold stitch_images at hres ⊢
  rcases hd : decode4 env tl tr bl br with de | quad
  · simp [hd]
  · obtain ⟨a, b, c, d⟩ := quad
    simp only [hd] at hres ⊢
    rcases hv : validate_sizes a b c d with ve | vu
    · simp [hv]
    · simp only [hv] at hres ⊢
      rcases hc : env.fileCreate out with ce | cu
      · simp [hc]
      · simp only [hc] at hres ⊢
        rcases hs : env.imageSave (compose2x2 a b c d) out with se | su
        · simp only [hs] at hres ⊢
          rcases hkind with ⟨s, rfl⟩ | rfl <;> simp_all
        · simp only [hs] at hres
          simp_all

/-- Witness for C6: with every decode failing, the pipeline errors and the
effect list is empty. -/
theorem compose_failure_no_output_witness :
    (stitch_images envAllFail "a" "b" "c" "d" "o").2 = [] :=
  compose_failure_no_output envAllFail "a" "b" "c" "d" "o"
    (StitcherError.ImageError "decode failure") rfl
    (Or.inl ⟨"decode failure", rfl⟩)

/-- C7 evaluation at the failing input: when only `--top-left` is supplied
(no `--using`, and top-right, bottom-left, bottom-right and output are all
absent), `run` takes no action and the invocation returns `Ok(())` with no
output-file effect, instead of failing with `CommandLineParsingError` as the
spec's argument-validation contract requires. -/
theorem run_only_top_left_silently_succeeds (env : Env) :
    run { usingOpt := none, topLeft := some "a.png", topRight := none,
          bottomLeft := none, bottomRight := none, output := none } =
      RunAction.noop ∧
    run_exec env { usingOpt := none, topLeft := some "a.png", topRight := none,
                   bottomLeft := none, bottomRight := none, output := none } =
      (Except.ok (), []) :=
  ⟨rfl, rfl⟩

/-- C9: invoking the program with no arguments at all (no `--using` and none
of the five explicit options) returns `Ok` and performs no composition and no
file I/O — a silent no-op. -/
theorem run_no_args_silent_noop (env : Env) :
    run { usingOpt := none, topLeft := none, topRight := none,
          bottomLeft := none, bottomRight := none, output := none } =
      RunAction.noop ∧
    run_exec env { usingOpt := none, topLeft := none, topRight := none,
                   bottomLeft := none, bottomRight := none, output := none } =
      (Except.ok (), []) :=
  ⟨rfl, rfl⟩

/-- Witness for C10: copying a 2x2 source at offset (2, 0) into a 4x4 zero
canvas leaves the pixel (1, 1), outside the target rectangle, unchanged. -/
theorem copy_into_frame_witness :
    (copy_into (ImageBuffer.new 4 4) (solid 2 2 pxRed) 2 0 2 2).pix 1 1 =
        (ImageBuffer.new 4 4).pix 1 1 ∧
    (copy_into (ImageBuffer.new 4 4) (solid 2 2 pxRed) 2 0 2 2).width =
        (ImageBuffer.new 4 4).width ∧
    (copy_into (ImageBuffer.new 4 4) (solid 2 2 pxRed) 2 0 2 2).height =
        (ImageBuffer.new 4 4).height :=
  copy_into_frame (ImageBuffer.new 4 4) (solid 2 2 pxRed) 2 0 2 2 1 1
    rfl rfl (by norm_num) (by norm_num) (by norm_num)

end Stitcher
